import Mathlib

set_option linter.unusedVariables false

/-!
Shallow embedding of the Kibana infra metrics adapter
(`KibanaMetricsAdapter.getMetrics` / `makeTSVBRequest`) together with the
external collaborators it calls.  I/O is modelled by an explicit environment
of backend functions, and every backend interaction is recorded in an event
trace so that temporal claims (ordering of the existence check, the interval
probe and the metric query dispatch) can be stated and proved.
-/

namespace KibanaMetrics

/-- Field-name map of a source configuration (`sourceConfiguration.fields`). -/
structure SourceFields where
  id : String
  timestamp : String
deriving DecidableEq

/-- `options.sourceConfiguration`: index aliases plus the field map. -/
structure SourceConfiguration where
  metricAlias : String
  logAlias : String
  fields : SourceFields
deriving DecidableEq

/-- `options.nodeIds`: the node id and the optional cloud id. -/
structure NodeIdentifiers where
  nodeId : String
  cloudId : Option String
deriving DecidableEq

/-- `options.timerange`: bounds in epoch millis plus the interval hint string. -/
structure Timerange where
  from' : Int
  to' : Int
  interval : String
deriving DecidableEq

/-- `InfraMetricsRequestOptions`: the single input of the orchestrator. -/
structure InfraMetricsRequestOptions where
  nodeType : String
  nodeIds : NodeIdentifiers
  metrics : List String
  timerange : Timerange
  sourceConfiguration : SourceConfiguration
deriving DecidableEq

/-- A TSVB metric model as far as the adapter inspects it: identification
mode (`id_type`), optional filter-field override (`map_field_to`), interval
sensitivities (`requires`) and the interval slot. -/
structure TSVBMetricModel where
  id_type : Option String
  map_field_to : Option String
  requires : List String
  interval : String
deriving DecidableEq

/-- `TSVBMetricModelCreator`: builds a model from the timestamp field, the
combined index pattern and the interval hint. -/
def TSVBMetricModelCreator : Type := String → String → String → TSVBMetricModel

/-- One raw backend series: `{ id, label, data: [[timestamp, value], ...] }`. -/
structure RawSeries where
  id : String
  label : String
  data : List (ℚ × ℚ)
deriving DecidableEq

/-- One raw backend panel, holding the series for one sub-metric key. -/
structure Panel where
  series : List RawSeries
deriving DecidableEq

/-- A raw backend result: a key/panel object, keys in insertion order. -/
def RawResult : Type := List (String × Panel)

/-- A normalized data point `{timestamp, value}`. -/
structure DataPoint where
  timestamp : ℚ
  value : ℚ
deriving DecidableEq

/-- A normalized series `{ id, label, data }`. -/
structure NormalizedSeries where
  id : String
  label : String
  data : List DataPoint
deriving DecidableEq

/-- `NodeDetailsMetricData`: one normalized output unit. -/
structure NodeDetailsMetricData where
  id : String
  series : List NormalizedSeries
deriving DecidableEq

/-- The error taxonomy, one constructor per throw site of the adapter. -/
inductive MetricsError where
  /-- `'{nodeId} does not exist.'` -/
  | nodeNotFound (nodeId : String)
  /-- `'The TSVB model for {metricId} does not exist for {nodeType}'` -/
  | missingTSVBModel (metricId : String) (nodeType : String)
  /-- `'Model for {metricId} requires a cloudId, but none was given for {nodeId}.'` -/
  | cloudIdMissing (metricId : String) (nodeId : String)
  /-- `'{id} is not a valid InfraMetric'` -/
  | invalidInfraMetric (id : String)
  /-- transport/backend-level failure of a dispatched metric query -/
  | backendError (msg : String)
deriving DecidableEq

/-- A match filter `{ match: { [field]: value } }`. -/
structure Filter where
  field : String
  value : String
deriving DecidableEq

/-- Backend interactions, recorded in execution order. -/
inductive Event where
  /-- the zero-size existence query of the node validator -/
  | existenceCheck (indexPattern : String) (idField : String) (nodeId : String)
  /-- the data-density probe of the interval calculator -/
  | intervalProbe (indexPattern : String) (timestampField : String)
  /-- a dispatched metric query, tagged with the metric whose task issued it -/
  | metricQuery (metricId : String) (model : TSVBMetricModel) (filters : List Filter)
deriving DecidableEq

/-- The `timerange` object handed to the TSVB request (`{min, max}`). -/
structure TimerangeMinMax where
  min : Int
  max : Int
deriving DecidableEq

/-- The external collaborators of the adapter, bundled: the search backend
(total hits of the existence query and the density probe of the interval
calculator), the model catalog `metrics.tsvb`, the TSVB dispatch surface of
the framework, and the runtime metric registry `InventoryMetricRT`. -/
structure Env where
  search : String → String → String → Nat
  probe : String → String → Timerange → Nat
  tsvb : String → Option TSVBMetricModelCreator
  dispatch : TSVBMetricModel → TimerangeMinMax → List Filter → Except String RawResult
  isInventoryMetric : String → Bool

/-- Modelled from the spec: `checkValidNode` (NodeValidator, not under src/)
issues a zero-size term query on `idField = nodeId` and reads back
`totalHits > 0`. -/
def checkValidNode (search : String → String → String → Nat)
    (indexPattern : String) (nodeField : String) (nodeId : String) : Bool :=
  0 < search indexPattern nodeField nodeId

/-- Modelled from the spec: `findInventoryFields` (not under src/) yields the
field-name map (`id`, `timestamp`) for the node type; here the caller-supplied
source-configuration fields stand for that map. -/
def findInventoryFields (nodeType : String) (fields : SourceFields) : SourceFields :=
  fields

/-- Modelled from the spec: `calculateMetricInterval` (IntervalCalculator, not
under src/).  If `requires` is empty it returns none without touching the
backend; otherwise it probes the backend once for data density over the time
range and derives a minimum safe bucket width (the derivation itself is the
abstract `probe` of the environment).  The probe is recorded as an event. -/
def calculateMetricInterval (probe : String → String → Timerange → Nat)
    (indexPattern : String) (timestampField : String) (timerange : Timerange)
    (requires : List String) : Option Nat × List Event :=
  if requires.isEmpty then (none, [])
  else (some (probe indexPattern timestampField timerange),
        [Event.intervalProbe indexPattern timestampField])

/-- Fail-fast traversal: the semantics of running a list of fallible steps in
order, stopping at the first error (`Array.map` with a throwing callback, and
`Promise.all` determinized to input order). -/
def traverseExcept {α β : Type} (f : α → Except MetricsError β) :
    List α → Except MetricsError (List β)
  | [] => Except.ok []
  | x :: xs =>
    match f x with
    | Except.error e => Except.error e
    | Except.ok y =>
      match traverseExcept f xs with
      | Except.error e => Except.error e
      | Except.ok ys => Except.ok (y :: ys)

/-- `Promise.all`, determinized to input order: the joined list when every
task succeeded, else the first (in input order) failing task's error. -/
def joinAll : List (Except MetricsError RawResult) →
    Except MetricsError (List RawResult)
  | [] => Except.ok []
  | Except.error e :: _ => Except.error e
  | Except.ok r :: rest =>
    match joinAll rest with
    | Except.error e => Except.error e
    | Except.ok rs => Except.ok (r :: rs)

/-- `KibanaMetricsAdapter.makeTSVBRequest`: resolve the model creator from the
catalog, build the model over the metric-first index pattern, run the interval
calculator over the log-first index pattern, override the interval when the
calculated value is truthy, enforce the cloud-id requirement, build the match
filter and dispatch.  Returns the task outcome plus its backend events. -/
def makeTSVBRequest (env : Env) (metricId : String)
    (options : InfraMetricsRequestOptions) (nodeField : String) :
    Except MetricsError RawResult × List Event :=
  match env.tsvb metricId with
  | none => (Except.error (MetricsError.missingTSVBModel metricId options.nodeType), [])
  | some createTSVBModel =>
    let indexPattern :=
      options.sourceConfiguration.metricAlias ++ "," ++ options.sourceConfiguration.logAlias
    let timerange : TimerangeMinMax :=
      { min := options.timerange.from', max := options.timerange.to' }
    let model0 := createTSVBModel options.sourceConfiguration.fields.timestamp
      indexPattern options.timerange.interval
    let calcd := calculateMetricInterval env.probe
      (options.sourceConfiguration.logAlias ++ "," ++ options.sourceConfiguration.metricAlias)
      options.sourceConfiguration.fields.timestamp options.timerange model0.requires
    let model :=
      match calcd.1 with
      | some v =>
        if v = 0 then model0
        else { model0 with interval := ">=" ++ toString v ++ "s" }
      | none => model0
    if model.id_type = some "cloud" ∧ options.nodeIds.cloudId = none then
      (Except.error (MetricsError.cloudIdMissing metricId options.nodeIds.nodeId), calcd.2)
    else
      let id :=
        if model.id_type = some "cloud" then options.nodeIds.cloudId.getD ""
        else options.nodeIds.nodeId
      let filters :=
        match model.map_field_to with
        | some f => [Filter.mk f id]
        | none => [Filter.mk nodeField id]
      let events := calcd.2 ++ [Event.metricQuery metricId model filters]
      match env.dispatch model timerange filters with
      | Except.error e => (Except.error (MetricsError.backendError e), events)
      | Except.ok raw => (Except.ok raw, events)

/-- The inline result normalization of `getMetrics`, factored out as the
ResultNormalizer of the spec: iterate the keys of the raw result, drop the
reserved keys `type` and `uiRestrictions`, reject keys outside the runtime
metric registry, and reshape each panel's series point-wise. -/
def normalizeResult (isMetric : String → Bool) (result : RawResult) :
    Except MetricsError (List NodeDetailsMetricData) :=
  let metricIds := (result.map Prod.fst).filter
    (fun k => !(k == "type" || k == "uiRestrictions"))
  traverseExcept (fun id =>
    if !(isMetric id) then
      Except.error (MetricsError.invalidInfraMetric id)
    else
      let panel := ((result.find? (fun kv => kv.1 == id)).map Prod.snd).getD ⟨[]⟩
      Except.ok
        { id := id
          series := panel.series.map (fun series =>
            { id := series.id
              label := series.label
              data := series.data.map (fun point =>
                { timestamp := point.1, value := point.2 }) }) }) metricIds

/-- `KibanaMetricsAdapter.getMetrics`: validate node existence, fan out one
TSVB task per requested metric, join (`Promise.all`), normalize each raw
result and flatten.  Returns the outcome plus the full backend event trace
(the existence check first, then every task's events in task order). -/
def getMetrics (env : Env) (options : InfraMetricsRequestOptions) :
    Except MetricsError (List NodeDetailsMetricData) × List Event :=
  let indexPattern :=
    options.sourceConfiguration.metricAlias ++ "," ++ options.sourceConfiguration.logAlias
  let fields := findInventoryFields options.nodeType options.sourceConfiguration.fields
  let nodeField := fields.id
  let checkEvent := Event.existenceCheck indexPattern nodeField options.nodeIds.nodeId
  let validNode := checkValidNode env.search indexPattern nodeField options.nodeIds.nodeId
  if !validNode then
    (Except.error (MetricsError.nodeNotFound options.nodeIds.nodeId), [checkEvent])
  else
    let requests := options.metrics.map
      (fun metricId => makeTSVBRequest env metricId options nodeField)
    let events := checkEvent :: (requests.map Prod.snd).flatten
    match joinAll (requests.map Prod.fst) with
    | Except.error e => (Except.error e, events)
    | Except.ok results =>
      match traverseExcept (normalizeResult env.isInventoryMetric) results with
      | Except.error e => (Except.error e, events)
      | Except.ok normalized => (Except.ok normalized.flatten, events)

/-! ### Abbreviations for pieces of `makeTSVBRequest`, used in statements -/

/-- The combined index pattern for metric lookups: metric alias first. -/
def metricFirstPattern (sc : SourceConfiguration) : String :=
  sc.metricAlias ++ "," ++ sc.logAlias

/-- The index pattern handed to the interval calculator: log alias first. -/
def logFirstPattern (sc : SourceConfiguration) : String :=
  sc.logAlias ++ "," ++ sc.metricAlias

/-- The model the creator builds: timestamp field, metric-first pattern,
interval hint. -/
def builtModel (options : InfraMetricsRequestOptions)
    (creator : TSVBMetricModelCreator) : TSVBMetricModel :=
  creator options.sourceConfiguration.fields.timestamp
    (metricFirstPattern options.sourceConfiguration) options.timerange.interval

/-- The interval override of `makeTSVBRequest`: a truthy (nonzero) calculated
interval overwrites the interval slot with the lower-bound string. -/
def overriddenModel (calculated : Option Nat) (model0 : TSVBMetricModel) : TSVBMetricModel :=
  match calculated with
  | some v =>
    if v = 0 then model0
    else { model0 with interval := ">=" ++ toString v ++ "s" }
  | none => model0

/-- The effective id: the cloud id for cloud-scoped models, else the node id. -/
def effectiveId (model : TSVBMetricModel) (options : InfraMetricsRequestOptions) : String :=
  if model.id_type = some "cloud" then options.nodeIds.cloudId.getD ""
  else options.nodeIds.nodeId

/-- The match filter of the query: the model's mapped field when declared,
else the node's own id field. -/
def taskFilters (model : TSVBMetricModel) (nodeField : String) (id : String) : List Filter :=
  match model.map_field_to with
  | some f => [Filter.mk f id]
  | none => [Filter.mk nodeField id]

/-! ### Concrete fixtures used by witnesses and counterexamples -/

/-- One half, the value `0.5` of the round-trip example. -/
def half : ℚ := ⟨1, 2, by decide, by decide⟩

/-- Three fifths, the value `0.6` of the round-trip example. -/
def threeFifths : ℚ := ⟨3, 5, by decide, by decide⟩

/-- A host-type source configuration. -/
def sourceConfig0 : SourceConfiguration :=
  { metricAlias := "metricbeat-*", logAlias := "filebeat-*"
    fields := { id := "host.name", timestamp := "@timestamp" } }

/-- A ten-second window with a 10s interval hint. -/
def timerange0 : Timerange := { from' := 0, to' := 10000, interval := "10s" }

/-- A standalone model with no interval sensitivities. -/
def creatorStd : TSVBMetricModelCreator := fun _tf _ip intv =>
  { id_type := none, map_field_to := none, requires := [], interval := intv }

/-- A standalone model with a field override and one interval sensitivity. -/
def creatorMem : TSVBMetricModelCreator := fun _tf _ip intv =>
  { id_type := none, map_field_to := some "host.mem", requires := ["system"], interval := intv }

/-- A cloud-scoped model with one interval sensitivity. -/
def creatorCloud : TSVBMetricModelCreator := fun _tf _ip intv =>
  { id_type := some "cloud", map_field_to := some "cloud.id", requires := ["aws"]
    interval := intv }

/-- Raw backend panel of the round-trip example (`[[1000, 0.5], [2000, 0.6]]`). -/
def panelCpu : Panel :=
  { series := [{ id := "cpu", label := "CPU", data := [(1000, half), (2000, threeFifths)] }] }

/-- Raw backend panel of the memory metric (`[[1000, 40]]`). -/
def panelMem : Panel :=
  { series := [{ id := "memory", label := "Memory", data := [(1000, 40)] }] }

/-- A three-entry catalog: `cpu`, `memory` and the cloud-scoped `awsCpu`. -/
def catalog0 : String → Option TSVBMetricModelCreator := fun m =>
  if m == "cpu" then some creatorStd
  else if m == "memory" then some creatorMem
  else if m == "awsCpu" then some creatorCloud
  else none

/-- The runtime metric registry of the fixtures. -/
def registry0 : String → Bool := fun k => k == "cpu" || k == "memory"

/-- A dispatch surface answering the memory query by its filter, everything
else with the cpu panel. -/
def dispatch0 : TSVBMetricModel → TimerangeMinMax → List Filter → Except String RawResult :=
  fun _ _ filters =>
    if filters == [Filter.mk "host.mem" "node-1"] then Except.ok [("memory", panelMem)]
    else Except.ok [("cpu", panelCpu)]

/-- Happy-path environment: node exists, density probe yields 30s. -/
def env0 : Env :=
  { search := fun _ _ _ => 1
    probe := fun _ _ _ => 30
    tsvb := catalog0
    dispatch := dispatch0
    isInventoryMetric := registry0 }

/-- Like `env0` but the density probe yields 0. -/
def envProbeZero : Env := { env0 with probe := fun _ _ _ => 0 }

/-- Like `env0` but the existence query reports zero hits. -/
def envNodeDown : Env := { env0 with search := fun _ _ _ => 0 }

/-- Like `env0` but the memory query fails at the backend. -/
def envDispatchFail : Env :=
  { env0 with
    dispatch := fun _ _ filters =>
      if filters == [Filter.mk "host.mem" "node-1"] then Except.error "backend unavailable"
      else Except.ok [("cpu", panelCpu)] }

/-- A two-metric request for `node-1` without a cloud id. -/
def options0 : InfraMetricsRequestOptions :=
  { nodeType := "host"
    nodeIds := { nodeId := "node-1", cloudId := none }
    metrics := ["cpu", "memory"]
    timerange := timerange0
    sourceConfiguration := sourceConfig0 }

/-- The same request asking only for the cloud-scoped metric. -/
def optionsCloud : InfraMetricsRequestOptions := { options0 with metrics := ["awsCpu"] }

/-- The same request asking only for a metric absent from the catalog. -/
def optionsUnknown : InfraMetricsRequestOptions := { options0 with metrics := ["bogus"] }

/-- The same request asking only for the memory metric. -/
def optionsMem : InfraMetricsRequestOptions := { options0 with metrics := ["memory"] }

/-! ### Helper lemmas about the join and traversal combinators -/

theorem joinAll_map_ok (rs : List RawResult) : joinAll (rs.map Except.ok) = Except.ok rs := by
  induction rs with
  | nil => rfl
  | cons r rest ih => simp [joinAll, ih]

theorem joinAll_ok_mem :
    ∀ {l : List (Except MetricsError RawResult)} {rs : List RawResult},
      joinAll l = Except.ok rs → ∀ x ∈ l, ∃ r, x = Except.ok r := by
  intro l
  induction l with
  | nil => intro rs _ x hx; cases hx
  | cons a t ih =>
    intro rs h x hx
    cases a with
    | error e => simp [joinAll] at h
    | ok r =>
      rcases List.mem_cons.mp hx with hx | hx
      · exact ⟨r, hx⟩
      · cases hjt : joinAll t with
        | error e => simp [joinAll, hjt] at h
        | ok rs' => exact ih hjt x hx

theorem joinAll_first_error (post : List (Except MetricsError RawResult))
    (e : MetricsError) :
    ∀ (pre : List (Except MetricsError RawResult)),
      (∀ x ∈ pre, ∃ r, x = Except.ok r) →
      joinAll (pre ++ Except.error e :: post) = Except.error e := by
  intro pre
  induction pre with
  | nil => intro _; rfl
  | cons a t ih =>
    intro hpre
    obtain ⟨r, ha⟩ := hpre a (List.mem_cons_self a t)
    have ht := ih (fun x hx => hpre x (List.mem_cons_of_mem a hx))
    subst ha
    simp [joinAll, ht]

theorem traverseExcept_map_ok {α β : Type} (f : α → Except MetricsError β) (g : α → β) :
    ∀ (l : List α), (∀ x ∈ l, f x = Except.ok (g x)) →
      traverseExcept f l = Except.ok (l.map g) := by
  intro l
  induction l with
  | nil => intro _; rfl
  | cons a t ih =>
    intro h
    have ha := h a (List.mem_cons_self a t)
    have ht := ih (fun x hx => h x (List.mem_cons_of_mem a hx))
    simp [traverseExcept, ha, ht]

theorem traverseExcept_forall₂ {α β : Type} (f : α → Except MetricsError β) :
    ∀ {l : List α} {ys : List β}, traverseExcept f l = Except.ok ys →
      List.Forall₂ (fun x y => f x = Except.ok y) l ys := by
  intro l
  induction l with
  | nil =>
    intro ys h
    cases ys with
    | nil => exact List.Forall₂.nil
    | cons y ys => simp [traverseExcept] at h
  | cons a t ih =>
    intro ys h
    cases hfa : f a with
    | error e => simp [traverseExcept, hfa] at h
    | ok y =>
      cases hjt : traverseExcept f t with
      | error e => simp [traverseExcept, hfa, hjt] at h
      | ok ys' =>
        simp [traverseExcept, hfa, hjt] at h
        subst h
        exact List.Forall₂.cons hfa (ih hjt)

theorem traverseExcept_first_error {α β : Type} (f : α → Except MetricsError β)
    (e : MetricsError) (pre : List α) (x : α) (post : List α)
    (hpre : ∀ y ∈ pre, ∃ z, f y = Except.ok z) (hx : f x = Except.error e) :
    traverseExcept f (pre ++ x :: post) = Except.error e := by
  induction pre with
  | nil => simp [traverseExcept, hx]
  | cons a t ih =>
    obtain ⟨z, hz⟩ := hpre a (List.mem_cons_self a t)
    have ht := ih (fun y hy => hpre y (List.mem_cons_of_mem a hy))
    simp [traverseExcept, hz, ht]

theorem forall₂_map_eq {α β : Type} {P : α → β → Prop} (g : β → α)
    (hg : ∀ x y, P x y → g y = x) :
    ∀ {l : List α} {ys : List β}, List.Forall₂ P l ys → ys.map g = l := by
  intro l ys h
  induction h with
  | nil => rfl
  | cons h₁ _ ih => simp [hg _ _ h₁, ih]

theorem flatten_decompose {α : Type} (ns : List (List α)) (i : Nat) (hi : i < ns.length) :
    ns.flatten = (ns.take i).flatten ++ ns[i] ++ (ns.drop (i + 1)).flatten := by
  conv_lhs => rw [← List.take_append_drop i ns]
  rw [List.flatten_append, ← List.getElem_cons_drop ns i hi]
  simp only [List.flatten_cons, List.append_assoc]

/-! ### Helper lemmas about the orchestrator -/

/-- Under a passing node check and all-successful tasks, `getMetrics` is the
flattening of whatever the normalizer yields on the joined raw results. -/
theorem getMetrics_tasks_ok (env : Env) (options : InfraMetricsRequestOptions)
    (rs : List RawResult)
    (hnode : checkValidNode env.search
      (options.sourceConfiguration.metricAlias ++ "," ++ options.sourceConfiguration.logAlias)
      (findInventoryFields options.nodeType options.sourceConfiguration.fields).id
      options.nodeIds.nodeId = true)
    (htasks : options.metrics.map (fun metricId => (makeTSVBRequest env metricId options
        (findInventoryFields options.nodeType options.sourceConfiguration.fields).id).1)
      = rs.map Except.ok) :
    ∀ ns, traverseExcept (normalizeResult env.isInventoryMetric) rs = Except.ok ns →
      (getMetrics env options).1 = Except.ok ns.flatten := by
  intro ns hnorm
  simp only [getMetrics, hnode, Bool.not_true, Bool.false_eq_true, if_false,
    List.map_map, Function.comp_def]
  rw [htasks, joinAll_map_ok]
  simp [hnorm]

/-- Master characterization of `makeTSVBRequest` when the catalog resolves the
metric: the task either stops at the cloud-id guard (after the interval
calculation) or dispatches the possibly-overridden model with its filters. -/
theorem makeTSVBRequest_resolved (env : Env) (options : InfraMetricsRequestOptions)
    (metricId : String) (nodeField : String) (creator : TSVBMetricModelCreator)
    (hcat : env.tsvb metricId = some creator) :
    makeTSVBRequest env metricId options nodeField =
      (let model0 := builtModel options creator
       let calcd := calculateMetricInterval env.probe
         (logFirstPattern options.sourceConfiguration)
         options.sourceConfiguration.fields.timestamp options.timerange model0.requires
       let model := overriddenModel calcd.1 model0
       if model.id_type = some "cloud" ∧ options.nodeIds.cloudId = none then
         (Except.error (MetricsError.cloudIdMissing metricId options.nodeIds.nodeId), calcd.2)
       else
         let filters := taskFilters model nodeField (effectiveId model options)
         match env.dispatch model
             { min := options.timerange.from', max := options.timerange.to' } filters with
         | Except.error e =>
           (Except.error (MetricsError.backendError e),
            calcd.2 ++ [Event.metricQuery metricId model filters])
         | Except.ok raw =>
           (Except.ok raw, calcd.2 ++ [Event.metricQuery metricId model filters])) := by
  simp only [makeTSVBRequest, hcat, builtModel, metricFirstPattern, logFirstPattern,
    overriddenModel, effectiveId, taskFilters]

theorem overriddenModel_id_type (calculated : Option Nat) (model0 : TSVBMetricModel) :
    (overriddenModel calculated model0).id_type = model0.id_type := by
  cases calculated with
  | none => rfl
  | some v =>
    by_cases h : v = 0 <;> simp [overriddenModel, h]

theorem overriddenModel_requires (calculated : Option Nat) (model0 : TSVBMetricModel) :
    (overriddenModel calculated model0).requires = model0.requires := by
  cases calculated with
  | none => rfl
  | some v =>
    by_cases h : v = 0 <;> simp [overriddenModel, h]

theorem calculateMetricInterval_fst (probe : String → String → Timerange → Nat)
    (indexPattern timestampField : String) (timerange : Timerange) (requires : List String) :
    (calculateMetricInterval probe indexPattern timestampField timerange requires).1 =
      if requires.isEmpty then none
      else some (probe indexPattern timestampField timerange) := by
  by_cases h : requires.isEmpty <;> simp [calculateMetricInterval, h]

theorem calculateMetricInterval_snd (probe : String → String → Timerange → Nat)
    (indexPattern timestampField : String) (timerange : Timerange) (requires : List String) :
    (calculateMetricInterval probe indexPattern timestampField timerange requires).2 =
      if requires.isEmpty then []
      else [Event.intervalProbe indexPattern timestampField] := by
  by_cases h : requires.isEmpty <;> simp [calculateMetricInterval, h]

/-- Catalog miss: the task fails with the missing-model error and performs no
backend interaction at all. -/
theorem makeTSVBRequest_none (env : Env) (options : InfraMetricsRequestOptions)
    (metricId : String) (nodeField : String)
    (hcat : env.tsvb metricId = none) :
    makeTSVBRequest env metricId options nodeField =
      (Except.error (MetricsError.missingTSVBModel metricId options.nodeType), []) := by
  simp only [makeTSVBRequest, hcat]

/-- Cloud-id guard: a cloud-scoped model without a cloud id fails after the
interval calculation and never dispatches its metric query. -/
theorem makeTSVBRequest_cloud_blocked (env : Env) (options : InfraMetricsRequestOptions)
    (metricId : String) (nodeField : String) (creator : TSVBMetricModelCreator)
    (hcat : env.tsvb metricId = some creator)
    (hcloud : (builtModel options creator).id_type = some "cloud")
    (hnone : options.nodeIds.cloudId = none) :
    makeTSVBRequest env metricId options nodeField =
      (Except.error (MetricsError.cloudIdMissing metricId options.nodeIds.nodeId),
       (calculateMetricInterval env.probe (logFirstPattern options.sourceConfiguration)
         options.sourceConfiguration.fields.timestamp options.timerange
         (builtModel options creator).requires).2) := by
  rw [makeTSVBRequest_resolved env options metricId nodeField creator hcat]
  simp only [overriddenModel_id_type, hcloud, hnone, and_self, if_pos]

/-- No cloud block: the task dispatches exactly one metric query carrying the
possibly-overridden model. -/
theorem makeTSVBRequest_dispatches (env : Env) (options : InfraMetricsRequestOptions)
    (metricId : String) (nodeField : String) (creator : TSVBMetricModelCreator)
    (model0 : TSVBMetricModel) (calcd : Option Nat × List Event) (model : TSVBMetricModel)
    (hcat : env.tsvb metricId = some creator)
    (hm0 : model0 = builtModel options creator)
    (hcal : calcd = calculateMetricInterval env.probe
      (logFirstPattern options.sourceConfiguration)
      options.sourceConfiguration.fields.timestamp options.timerange model0.requires)
    (hm : model = overriddenModel calcd.1 model0)
    (hnb : ¬(model0.id_type = some "cloud" ∧ options.nodeIds.cloudId = none)) :
    (makeTSVBRequest env metricId options nodeField).2 =
      calcd.2 ++ [Event.metricQuery metricId model
        (taskFilters model nodeField (effectiveId model options))] := by
  subst hm0 hcal hm
  simp only [makeTSVBRequest_resolved env options metricId nodeField creator hcat]
  rw [if_neg (by rw [overriddenModel_id_type]; exact hnb)]
  split <;> rfl

/-- The event trace of `getMetrics`: the existence check first, then (only if
the node was valid) the concatenated per-task events in task order. -/
theorem getMetrics_events (env : Env) (options : InfraMetricsRequestOptions) :
    (getMetrics env options).2 =
      Event.existenceCheck
        (options.sourceConfiguration.metricAlias ++ "," ++ options.sourceConfiguration.logAlias)
        (findInventoryFields options.nodeType options.sourceConfiguration.fields).id
        options.nodeIds.nodeId ::
      (if checkValidNode env.search
          (options.sourceConfiguration.metricAlias ++ "," ++ options.sourceConfiguration.logAlias)
          (findInventoryFields options.nodeType options.sourceConfiguration.fields).id
          options.nodeIds.nodeId then
        (options.metrics.map (fun metricId => (makeTSVBRequest env metricId options
          (findInventoryFields options.nodeType options.sourceConfiguration.fields).id).2)).flatten
       else []) := by
  simp only [getMetrics, List.map_map, Function.comp_def]
  cases hv : checkValidNode env.search
      (options.sourceConfiguration.metricAlias ++ "," ++ options.sourceConfiguration.logAlias)
      (findInventoryFields options.nodeType options.sourceConfiguration.fields).id
      options.nodeIds.nodeId with
  | false => simp
  | true =>
    simp only [Bool.not_true, Bool.false_eq_true, if_false, if_true]
    split
    · rfl
    · split <;> rfl

/-- If some per-metric task fails, `getMetrics` cannot return a result list. -/
theorem getMetrics_not_ok_of_task_error (env : Env) (options : InfraMetricsRequestOptions)
    (e : MetricsError)
    (hmem : Except.error e ∈ options.metrics.map (fun metricId =>
      (makeTSVBRequest env metricId options
        (findInventoryFields options.nodeType options.sourceConfiguration.fields).id).1)) :
    ∀ out, (getMetrics env options).1 ≠ Except.ok out := by
  intro out h
  simp only [getMetrics, List.map_map, Function.comp_def] at h
  cases hv : checkValidNode env.search
      (options.sourceConfiguration.metricAlias ++ "," ++ options.sourceConfiguration.logAlias)
      (findInventoryFields options.nodeType options.sourceConfiguration.fields).id
      options.nodeIds.nodeId with
  | false => rw [hv] at h; simp at h
  | true =>
    rw [hv] at h
    simp only [Bool.not_true, Bool.false_eq_true, if_false, if_true] at h
    cases hj : joinAll (options.metrics.map (fun metricId =>
        (makeTSVBRequest env metricId options
          (findInventoryFields options.nodeType options.sourceConfiguration.fields).id).1)) with
    | error e' => rw [hj] at h; simp at h
    | ok rs =>
      obtain ⟨r, hr⟩ := joinAll_ok_mem hj (Except.error e) hmem
      exact Except.noConfusion hr

/-- Fail-fast core: with a valid node, if the task list splits as successes
followed by a first error, `getMetrics` rejects with that error. -/
theorem getMetrics_first_error (env : Env) (options : InfraMetricsRequestOptions)
    (e : MetricsError) (pre post : List (Except MetricsError RawResult))
    (hnode : checkValidNode env.search
      (options.sourceConfiguration.metricAlias ++ "," ++ options.sourceConfiguration.logAlias)
      (findInventoryFields options.nodeType options.sourceConfiguration.fields).id
      options.nodeIds.nodeId = true)
    (hsplit : options.metrics.map (fun metricId => (makeTSVBRequest env metricId options
        (findInventoryFields options.nodeType options.sourceConfiguration.fields).id).1)
      = pre ++ Except.error e :: post)
    (hpre : ∀ x ∈ pre, ∃ r, x = Except.ok r) :
    (getMetrics env options).1 = Except.error e := by
  simp only [getMetrics, hnode, Bool.not_true, Bool.false_eq_true, if_false,
    List.map_map, Function.comp_def]
  rw [hsplit, joinAll_first_error post e pre hpre]

/-! ### The claims -/

/-- Claim C2: whenever the node existence check reports the node absent,
`getMetrics` fails with the node-not-found error naming the node id and its
trace is exactly the existence check — zero metric queries reach the backend;
moreover in every execution the existence check is the head of the trace, so
it strictly precedes every metric query dispatch. -/
theorem c2_node_absent_zero_queries (env : Env) (options : InfraMetricsRequestOptions) :
    (checkValidNode env.search
        (options.sourceConfiguration.metricAlias ++ "," ++ options.sourceConfiguration.logAlias)
        (findInventoryFields options.nodeType options.sourceConfiguration.fields).id
        options.nodeIds.nodeId = false →
      getMetrics env options =
        (Except.error (MetricsError.nodeNotFound options.nodeIds.nodeId),
         [Event.existenceCheck
            (options.sourceConfiguration.metricAlias ++ "," ++ options.sourceConfiguration.logAlias)
            (findInventoryFields options.nodeType options.sourceConfiguration.fields).id
            options.nodeIds.nodeId]))
    ∧ ∃ rest, (getMetrics env options).2 =
        Event.existenceCheck
          (options.sourceConfiguration.metricAlias ++ "," ++ options.sourceConfiguration.logAlias)
          (findInventoryFields options.nodeType options.sourceConfiguration.fields).id
          options.nodeIds.nodeId :: rest := by
  constructor
  · intro h
    simp [getMetrics, h]
  · exact ⟨_, getMetrics_events env options⟩

/-- Witness for C2 at a concrete environment whose backend holds no such node. -/
theorem c2_witness :
    getMetrics envNodeDown options0 =
      (Except.error (MetricsError.nodeNotFound "node-1"),
       [Event.existenceCheck "metricbeat-*,filebeat-*" "host.name" "node-1"]) :=
  (c2_node_absent_zero_queries envNodeDown options0).1 (by decide)

/-- Claim C1: when the node check passes and every per-metric task yields a
raw result, `getMetrics` returns exactly the flattening of the normalized
per-metric results — every normalized entry appears, and nothing else. -/
theorem c1_flattened_union (env : Env) (options : InfraMetricsRequestOptions)
    (rs : List RawResult) (ns : List (List NodeDetailsMetricData))
    (hnode : checkValidNode env.search
      (options.sourceConfiguration.metricAlias ++ "," ++ options.sourceConfiguration.logAlias)
      (findInventoryFields options.nodeType options.sourceConfiguration.fields).id
      options.nodeIds.nodeId = true)
    (htasks : options.metrics.map (fun metricId => (makeTSVBRequest env metricId options
        (findInventoryFields options.nodeType options.sourceConfiguration.fields).id).1)
      = rs.map Except.ok)
    (hnorm : traverseExcept (normalizeResult env.isInventoryMetric) rs = Except.ok ns) :
    (getMetrics env options).1 = Except.ok ns.flatten :=
  getMetrics_tasks_ok env options rs hnode htasks ns hnorm

/-- Witness for C1: both requested metrics succeed and the output is the
flattened pair of normalized results. -/
theorem c1_witness :
    (getMetrics env0 options0).1 = Except.ok
      [⟨"cpu", [⟨"cpu", "CPU", [⟨1000, half⟩, ⟨2000, threeFifths⟩]⟩]⟩,
       ⟨"memory", [⟨"memory", "Memory", [⟨1000, 40⟩]⟩]⟩] := by
  rw [c1_flattened_union env0 options0
    [[("cpu", panelCpu)], [("memory", panelMem)]]
    [[⟨"cpu", [⟨"cpu", "CPU", [⟨1000, half⟩, ⟨2000, threeFifths⟩]⟩]⟩],
     [⟨"memory", [⟨"memory", "Memory", [⟨1000, 40⟩]⟩]⟩]]
    (by decide) (by rfl) (by rfl)]
  rfl

/-- Claim C10: under the same all-success hypotheses, the flattened output
keeps input metric order — the entries normalized from the i-th requested
metric sit contiguously after every entry of earlier metrics and before every
entry of later ones, because the join is positional and flattening preserves
position. -/
theorem c10_output_preserves_metric_order (env : Env) (options : InfraMetricsRequestOptions)
    (rs : List RawResult) (ns : List (List NodeDetailsMetricData))
    (hnode : checkValidNode env.search
      (options.sourceConfiguration.metricAlias ++ "," ++ options.sourceConfiguration.logAlias)
      (findInventoryFields options.nodeType options.sourceConfiguration.fields).id
      options.nodeIds.nodeId = true)
    (htasks : options.metrics.map (fun metricId => (makeTSVBRequest env metricId options
        (findInventoryFields options.nodeType options.sourceConfiguration.fields).id).1)
      = rs.map Except.ok)
    (hnorm : traverseExcept (normalizeResult env.isInventoryMetric) rs = Except.ok ns)
    (i : Nat) (hi : i < ns.length) :
    (getMetrics env options).1 =
      Except.ok ((ns.take i).flatten ++ ns[i] ++ (ns.drop (i + 1)).flatten) := by
  rw [getMetrics_tasks_ok env options rs hnode htasks ns hnorm, ← flatten_decompose ns i hi]

/-- Witness for C10 at the two-metric request: the memory entries (metric
index 1) come after the cpu entries. -/
theorem c10_witness :
    (getMetrics env0 options0).1 = Except.ok
      ([⟨"cpu", [⟨"cpu", "CPU", [⟨1000, half⟩, ⟨2000, threeFifths⟩]⟩]⟩] ++
       [⟨"memory", [⟨"memory", "Memory", [⟨1000, 40⟩]⟩]⟩] ++ []) := by
  rw [c10_output_preserves_metric_order env0 options0
    [[("cpu", panelCpu)], [("memory", panelMem)]]
    [[⟨"cpu", [⟨"cpu", "CPU", [⟨1000, half⟩, ⟨2000, threeFifths⟩]⟩]⟩],
     [⟨"memory", [⟨"memory", "Memory", [⟨1000, 40⟩]⟩]⟩]]
    (by decide) (by rfl) (by rfl) 1 (by decide)]
  rfl

/-- Claim C4: if at least one per-metric task fails, `getMetrics` rejects with
the first failing task's error (in task order) and never returns a result
list containing the successful siblings' data. -/
theorem c4_fail_fast_no_partial_results (env : Env) (options : InfraMetricsRequestOptions)
    (e : MetricsError) :
    (∀ pre post,
      checkValidNode env.search
        (options.sourceConfiguration.metricAlias ++ "," ++ options.sourceConfiguration.logAlias)
        (findInventoryFields options.nodeType options.sourceConfiguration.fields).id
        options.nodeIds.nodeId = true →
      options.metrics.map (fun metricId => (makeTSVBRequest env metricId options
        (findInventoryFields options.nodeType options.sourceConfiguration.fields).id).1)
        = pre ++ Except.error e :: post →
      (∀ x ∈ pre, ∃ r, x = Except.ok r) →
      (getMetrics env options).1 = Except.error e)
    ∧ (Except.error e ∈ options.metrics.map (fun metricId => (makeTSVBRequest env metricId options
        (findInventoryFields options.nodeType options.sourceConfiguration.fields).id).1) →
      ∀ out, (getMetrics env options).1 ≠ Except.ok out) := by
  constructor
  · intro pre post hnode hsplit hpre
    exact getMetrics_first_error env options e pre post hnode hsplit hpre
  · exact getMetrics_not_ok_of_task_error env options e

/-- Witness for C4: the memory query fails at the backend while the cpu query
succeeds, and the whole request rejects with the memory task's error. -/
theorem c4_witness :
    (getMetrics envDispatchFail options0).1 =
      Except.error (MetricsError.backendError "backend unavailable") :=
  (c4_fail_fast_no_partial_results envDispatchFail options0
    (MetricsError.backendError "backend unavailable")).1
    [Except.ok [("cpu", panelCpu)]] [] (by decide) (by rfl)
    (fun x hx => ⟨[("cpu", panelCpu)], List.mem_singleton.mp hx⟩)

/-- Every metric query event in a task's trace carries that task's metric id. -/
theorem makeTSVBRequest_query_tag (env : Env) (options : InfraMetricsRequestOptions)
    (m : String) (nodeField : String) (mid : String) (model : TSVBMetricModel)
    (filters : List Filter)
    (h : Event.metricQuery mid model filters ∈ (makeTSVBRequest env m options nodeField).2) :
    mid = m := by
  cases hcat : env.tsvb m with
  | none =>
    rw [makeTSVBRequest_none env options m nodeField hcat] at h
    cases h
  | some creator =>
    by_cases hb : (builtModel options creator).id_type = some "cloud" ∧
        options.nodeIds.cloudId = none
    · rw [makeTSVBRequest_cloud_blocked env options m nodeField creator hcat hb.1 hb.2] at h
      rw [calculateMetricInterval_snd] at h
      split at h
      · cases h
      · simp at h
    · rw [makeTSVBRequest_dispatches env options m nodeField creator _ _ _ hcat rfl rfl rfl hb,
        calculateMetricInterval_snd] at h
      rcases List.mem_append.mp h with h1 | h1
      · split at h1
        · cases h1
        · simp at h1
      · exact (Event.metricQuery.injEq _ _ _ _ _ _).mp (List.mem_singleton.mp h1) |>.1

/-- If the task of a metric dispatches nothing, no metric query tagged with
that metric appears anywhere in the `getMetrics` trace. -/
theorem getMetrics_no_query_of_task (env : Env) (options : InfraMetricsRequestOptions)
    (mid : String)
    (h : ∀ model filters, Event.metricQuery mid model filters ∉
      (makeTSVBRequest env mid options
        (findInventoryFields options.nodeType options.sourceConfiguration.fields).id).2) :
    ∀ model filters, Event.metricQuery mid model filters ∉ (getMetrics env options).2 := by
  intro model filters hmem
  rw [getMetrics_events] at hmem
  rcases List.mem_cons.mp hmem with h1 | h1
  · exact Event.noConfusion h1
  · split at h1
    · obtain ⟨l, hl, hel⟩ := List.mem_flatten.mp h1
      obtain ⟨m', hm', rfl⟩ := List.mem_map.mp hl
      have := makeTSVBRequest_query_tag env options m'
        (findInventoryFields options.nodeType options.sourceConfiguration.fields).id
        mid model filters hel
      subst this
      exact h model filters hel
    · cases h1

/-- Claim C7: a metric id absent from the catalog makes its task fail with the
missing-model error naming the id and the node type, without any backend
interaction; that metric's query is never dispatched, `getMetrics` cannot
succeed, and a valid-node request for just that metric rejects with exactly
that error. -/
theorem c7_unknown_metric_model (env : Env) (options : InfraMetricsRequestOptions)
    (metricId : String) (nodeField : String)
    (hcat : env.tsvb metricId = none) :
    makeTSVBRequest env metricId options nodeField =
      (Except.error (MetricsError.missingTSVBModel metricId options.nodeType), [])
    ∧ (metricId ∈ options.metrics →
        (∀ out, (getMetrics env options).1 ≠ Except.ok out) ∧
        (∀ model filters,
          Event.metricQuery metricId model filters ∉ (getMetrics env options).2))
    ∧ (options.metrics = [metricId] →
        checkValidNode env.search
          (options.sourceConfiguration.metricAlias ++ "," ++ options.sourceConfiguration.logAlias)
          (findInventoryFields options.nodeType options.sourceConfiguration.fields).id
          options.nodeIds.nodeId = true →
        (getMetrics env options).1 =
          Except.error (MetricsError.missingTSVBModel metricId options.nodeType)) := by
  refine ⟨makeTSVBRequest_none env options metricId nodeField hcat,
    fun hmem => ⟨?_, ?_⟩, fun hsingle hnode => ?_⟩
  · apply getMetrics_not_ok_of_task_error env options
      (MetricsError.missingTSVBModel metricId options.nodeType)
    exact List.mem_map.mpr ⟨metricId, hmem,
      by rw [makeTSVBRequest_none env options metricId _ hcat]⟩
  · apply getMetrics_no_query_of_task
    intro model filters hq
    rw [makeTSVBRequest_none env options metricId _ hcat] at hq
    cases hq
  · apply getMetrics_first_error env options
      (MetricsError.missingTSVBModel metricId options.nodeType) [] [] hnode
    · rw [hsingle, List.map_singleton,
        makeTSVBRequest_none env options metricId _ hcat]
      rfl
    · intro x hx
      cases hx

/-- Witness for C7 at a request for a metric the catalog does not know. -/
theorem c7_witness :
    makeTSVBRequest env0 "bogus" optionsUnknown "host.name" =
      (Except.error (MetricsError.missingTSVBModel "bogus" "host"), []) ∧
    (getMetrics env0 optionsUnknown).1 =
      Except.error (MetricsError.missingTSVBModel "bogus" "host") :=
  ⟨(c7_unknown_metric_model env0 optionsUnknown "bogus" "host.name" (by rfl)).1,
   (c7_unknown_metric_model env0 optionsUnknown "bogus" "host.name" (by rfl)).2.2
     (by decide) (by decide)⟩

/-- Uniform event-trace shape of a resolved task: the interval calculator's
events first, then — unless the cloud-id guard trips — exactly one metric
query. -/
theorem makeTSVBRequest_events_resolved (env : Env) (options : InfraMetricsRequestOptions)
    (metricId : String) (nodeField : String) (creator : TSVBMetricModelCreator)
    (hcat : env.tsvb metricId = some creator) :
    (makeTSVBRequest env metricId options nodeField).2 =
      (calculateMetricInterval env.probe (logFirstPattern options.sourceConfiguration)
        options.sourceConfiguration.fields.timestamp options.timerange
        (builtModel options creator).requires).2 ++
      (if (builtModel options creator).id_type = some "cloud" ∧
          options.nodeIds.cloudId = none then []
       else
        [Event.metricQuery metricId
          (overriddenModel (calculateMetricInterval env.probe
            (logFirstPattern options.sourceConfiguration)
            options.sourceConfiguration.fields.timestamp options.timerange
            (builtModel options creator).requires).1 (builtModel options creator))
          (taskFilters
            (overriddenModel (calculateMetricInterval env.probe
              (logFirstPattern options.sourceConfiguration)
              options.sourceConfiguration.fields.timestamp options.timerange
              (builtModel options creator).requires).1 (builtModel options creator))
            nodeField
            (effectiveId (overriddenModel (calculateMetricInterval env.probe
              (logFirstPattern options.sourceConfiguration)
              options.sourceConfiguration.fields.timestamp options.timerange
              (builtModel options creator).requires).1 (builtModel options creator))
              options))]) := by
  by_cases hb : (builtModel options creator).id_type = some "cloud" ∧
      options.nodeIds.cloudId = none
  · rw [if_pos hb, List.append_nil,
      makeTSVBRequest_cloud_blocked env options metricId nodeField creator hcat hb.1 hb.2]
  · rw [if_neg hb,
      makeTSVBRequest_dispatches env options metricId nodeField creator _ _ _ hcat rfl rfl rfl hb]

/-- Claim C3 (amended): a cloud-scoped model without a cloud id makes the task
fail with the cloud-id error naming the metric and node ids; that metric's
query is never dispatched (the failure precedes the dispatch) and
`getMetrics` cannot succeed — but the interval-calculator probe is issued
before the cloud-id check, so the failure does not precede every network
call made on behalf of the metric. -/
theorem c3_cloud_scoped_without_cloud_id (env : Env) (options : InfraMetricsRequestOptions)
    (metricId : String) (nodeField : String) (creator : TSVBMetricModelCreator)
    (hcat : env.tsvb metricId = some creator)
    (hcloud : (builtModel options creator).id_type = some "cloud")
    (hnone : options.nodeIds.cloudId = none) :
    (makeTSVBRequest env metricId options nodeField).1 =
      Except.error (MetricsError.cloudIdMissing metricId options.nodeIds.nodeId)
    ∧ (∀ model filters,
        Event.metricQuery metricId model filters ∉ (makeTSVBRequest env metricId options nodeField).2)
    ∧ (metricId ∈ options.metrics → ∀ out, (getMetrics env options).1 ≠ Except.ok out) := by
  refine ⟨?_, ?_, ?_⟩
  · rw [makeTSVBRequest_cloud_blocked env options metricId nodeField creator hcat hcloud hnone]
  · intro model filters hq
    rw [makeTSVBRequest_cloud_blocked env options metricId nodeField creator hcat hcloud hnone,
      calculateMetricInterval_snd] at hq
    split at hq
    · cases hq
    · simp at hq
  · intro hmem
    apply getMetrics_not_ok_of_task_error env options
      (MetricsError.cloudIdMissing metricId options.nodeIds.nodeId)
    refine List.mem_map.mpr ⟨metricId, hmem, ?_⟩
    rw [makeTSVBRequest_cloud_blocked env options metricId _ creator hcat hcloud hnone]

/-- Witness for the amended C3 at the concrete cloud-scoped request. -/
theorem c3_witness :
    (makeTSVBRequest env0 "awsCpu" optionsCloud "host.name").1 =
      Except.error (MetricsError.cloudIdMissing "awsCpu" "node-1") :=
  (c3_cloud_scoped_without_cloud_id env0 optionsCloud "awsCpu" "host.name" creatorCloud
    (by rfl) (by rfl) (by rfl)).1

/-- Counterexample to claim C3 as stated: this run fails with the cloud-id
error, yet its trace already contains the interval-calculator probe issued on
behalf of that metric — a network call that preceded the failure. -/
theorem c3_counterexample :
    (getMetrics env0 optionsCloud).1 =
      Except.error (MetricsError.cloudIdMissing "awsCpu" "node-1")
    ∧ Event.intervalProbe "filebeat-*,metricbeat-*" "@timestamp"
        ∈ (getMetrics env0 optionsCloud).2 := by
  exact ⟨by rfl, by decide⟩

theorem overriddenModel_eq_update (c : Option Nat) (model0 : TSVBMetricModel) :
    overriddenModel c model0 =
      { model0 with interval := (overriddenModel c model0).interval } := by
  cases c with
  | none => rfl
  | some v => by_cases h : v = 0 <;> simp [overriddenModel, h]

/-- Any metric query event of a resolved task carries exactly the model built
over the metric-first pattern with the interval override applied. -/
theorem makeTSVBRequest_query_model (env : Env) (options : InfraMetricsRequestOptions)
    (metricId : String) (nodeField : String) (creator : TSVBMetricModelCreator)
    (hcat : env.tsvb metricId = some creator) :
    ∀ m filters,
      Event.metricQuery metricId m filters ∈ (makeTSVBRequest env metricId options nodeField).2 →
      m = overriddenModel (calculateMetricInterval env.probe
        (logFirstPattern options.sourceConfiguration)
        options.sourceConfiguration.fields.timestamp options.timerange
        (builtModel options creator).requires).1 (builtModel options creator) := by
  intro m filters h
  rw [makeTSVBRequest_events_resolved env options metricId nodeField creator hcat] at h
  rcases List.mem_append.mp h with h1 | h1
  · rw [calculateMetricInterval_snd] at h1
    split at h1
    · cases h1
    · simp at h1
  · split at h1
    · cases h1
    · exact ((Event.metricQuery.injEq _ _ _ _ _ _).mp (List.mem_singleton.mp h1)).2.1

/-- Claim C8: the interval-calculator probe always runs over the log-first
index pattern (and runs whenever the model has sensitivity requirements),
while the dispatched query model is the one the creator built over the
metric-first index pattern — the asymmetry holds for every metric. -/
theorem c8_index_pattern_asymmetry (env : Env) (options : InfraMetricsRequestOptions)
    (metricId : String) (nodeField : String) (creator : TSVBMetricModelCreator)
    (hcat : env.tsvb metricId = some creator) :
    (∀ p tf, Event.intervalProbe p tf ∈ (makeTSVBRequest env metricId options nodeField).2 →
      p = options.sourceConfiguration.logAlias ++ "," ++ options.sourceConfiguration.metricAlias ∧
      tf = options.sourceConfiguration.fields.timestamp)
    ∧ ((builtModel options creator).requires ≠ [] →
      Event.intervalProbe
        (options.sourceConfiguration.logAlias ++ "," ++ options.sourceConfiguration.metricAlias)
        options.sourceConfiguration.fields.timestamp
        ∈ (makeTSVBRequest env metricId options nodeField).2)
    ∧ (∀ m filters,
        Event.metricQuery metricId m filters ∈ (makeTSVBRequest env metricId options nodeField).2 →
        m = { creator options.sourceConfiguration.fields.timestamp
                (options.sourceConfiguration.metricAlias ++ "," ++
                  options.sourceConfiguration.logAlias)
                options.timerange.interval
              with interval := m.interval }) := by
  refine ⟨?_, ?_, ?_⟩
  · intro p tf h
    rw [makeTSVBRequest_events_resolved env options metricId nodeField creator hcat] at h
    rcases List.mem_append.mp h with h1 | h1
    · rw [calculateMetricInterval_snd] at h1
      split at h1
      · cases h1
      · have := List.mem_singleton.mp h1
        have h2 := (Event.intervalProbe.injEq _ _ _ _).mp this
        exact ⟨h2.1.trans (by rw [logFirstPattern]), h2.2⟩
    · split at h1
      · cases h1
      · simp at h1
  · intro hreq
    rw [makeTSVBRequest_events_resolved env options metricId nodeField creator hcat]
    apply List.mem_append_left
    rw [calculateMetricInterval_snd]
    cases hr : (builtModel options creator).requires with
    | nil => exact absurd hr hreq
    | cons a t => simp [logFirstPattern]
  · intro m filters h
    have hm := makeTSVBRequest_query_model env options metricId nodeField creator hcat m filters h
    rw [hm, overriddenModel_eq_update]
    simp only [builtModel, metricFirstPattern]

/-- Witness for C8: the memory metric's task probes over the log-first pattern
and dispatches the model built over the metric-first pattern. -/
theorem c8_witness :
    Event.intervalProbe "filebeat-*,metricbeat-*" "@timestamp"
      ∈ (makeTSVBRequest env0 "memory" optionsMem "host.name").2 :=
  (c8_index_pattern_asymmetry env0 optionsMem "memory" "host.name" creatorMem
    (by rfl)).2.1 (by decide)

/-- Claim C9 (amended): with an empty `requires` list the interval calculator
returns none and the dispatched model keeps its own interval built from the
request hint; a nonzero calculated value v overwrites the interval slot with
the lower-bound string before dispatch; but a calculated value of 0 is falsy
in the code's guard, so the override is skipped and the model's own interval
also stands. -/
theorem c9_interval_override (env : Env) (options : InfraMetricsRequestOptions)
    (metricId : String) (nodeField : String) (creator : TSVBMetricModelCreator)
    (hcat : env.tsvb metricId = some creator) :
    ((builtModel options creator).requires = [] →
      (calculateMetricInterval env.probe (logFirstPattern options.sourceConfiguration)
        options.sourceConfiguration.fields.timestamp options.timerange
        (builtModel options creator).requires).1 = none)
    ∧ (∀ v, (calculateMetricInterval env.probe (logFirstPattern options.sourceConfiguration)
          options.sourceConfiguration.fields.timestamp options.timerange
          (builtModel options creator).requires).1 = some v → v ≠ 0 →
        ∀ m filters,
          Event.metricQuery metricId m filters ∈ (makeTSVBRequest env metricId options nodeField).2 →
          m.interval = ">=" ++ toString v ++ "s")
    ∧ ((calculateMetricInterval env.probe (logFirstPattern options.sourceConfiguration)
          options.sourceConfiguration.fields.timestamp options.timerange
          (builtModel options creator).requires).1 = none →
        ∀ m filters,
          Event.metricQuery metricId m filters ∈ (makeTSVBRequest env metricId options nodeField).2 →
          m.interval = (builtModel options creator).interval)
    ∧ (∀ v, (calculateMetricInterval env.probe (logFirstPattern options.sourceConfiguration)
          options.sourceConfiguration.fields.timestamp options.timerange
          (builtModel options creator).requires).1 = some v → v = 0 →
        ∀ m filters,
          Event.metricQuery metricId m filters ∈ (makeTSVBRequest env metricId options nodeField).2 →
          m.interval = (builtModel options creator).interval) := by
  refine ⟨?_, ?_, ?_, ?_⟩
  · intro hreq
    rw [calculateMetricInterval_fst, hreq]
    rfl
  · intro v hv hv0 m filters h
    rw [makeTSVBRequest_query_model env options metricId nodeField creator hcat m filters h,
      hv]
    simp [overriddenModel, hv0]
  · intro hv m filters h
    rw [makeTSVBRequest_query_model env options metricId nodeField creator hcat m filters h,
      hv]
    rfl
  · intro v hv hv0 m filters h
    rw [makeTSVBRequest_query_model env options metricId nodeField creator hcat m filters h,
      hv, hv0]
    rfl

/-- Witness for the amended C9: with a calculated interval of 30s the memory
metric's dispatched model carries the lower-bound interval string. -/
theorem c9_witness :
    ({ id_type := none, map_field_to := some "host.mem", requires := ["system"]
       interval := ">=30s" } : TSVBMetricModel).interval = ">=" ++ toString 30 ++ "s" :=
  (c9_interval_override env0 optionsMem "memory" "host.name" creatorMem (by rfl)).2.1
    30 (by rfl) (by decide)
    { id_type := none, map_field_to := some "host.mem", requires := ["system"]
      interval := ">=30s" }
    [Filter.mk "host.mem" "node-1"] (by decide)

/-- Counterexample to claim C9 as stated: the interval calculation returns the
value 0, yet the dispatched model keeps its own interval `10s` instead of
being overwritten with `>=0s` — the code's truthiness guard skips zero. -/
theorem c9_counterexample :
    (calculateMetricInterval envProbeZero.probe
        (logFirstPattern optionsMem.sourceConfiguration)
        optionsMem.sourceConfiguration.fields.timestamp optionsMem.timerange
        (builtModel optionsMem creatorMem).requires).1 = some 0
    ∧ (getMetrics envProbeZero optionsMem).2 =
        [Event.existenceCheck "metricbeat-*,filebeat-*" "host.name" "node-1",
         Event.intervalProbe "filebeat-*,metricbeat-*" "@timestamp",
         Event.metricQuery "memory"
           { id_type := none, map_field_to := some "host.mem", requires := ["system"]
             interval := "10s" }
           [Filter.mk "host.mem" "node-1"]] :=
  ⟨by rfl, by decide⟩

/-- Claim C5: when every remaining key is recognized, normalization emits one
entry per key whose series copy each backend series' id and label and map
every `[timestamp, value]` pair to `{timestamp, value}`, preserving point
order exactly as received. -/
theorem c5_point_mapping (isMetric : String → Bool) (result : RawResult)
    (hall : ∀ k ∈ (result.map Prod.fst).filter
      (fun k => !(k == "type" || k == "uiRestrictions")), isMetric k = true) :
    normalizeResult isMetric result = Except.ok
      (((result.map Prod.fst).filter (fun k => !(k == "type" || k == "uiRestrictions"))).map
        (fun id =>
          { id := id
            series := (((result.find? (fun kv => kv.1 == id)).map Prod.snd).getD ⟨[]⟩).series.map
              (fun series =>
                { id := series.id
                  label := series.label
                  data := series.data.map (fun point =>
                    { timestamp := point.1, value := point.2 }) }) })) := by
  simp only [normalizeResult]
  apply traverseExcept_map_ok
  intro k hk
  rw [hall k hk]
  rfl

/-- Witness for C5, the round-trip of the spec: raw data
`[[1000, 0.5], [2000, 0.6]]` becomes `[{timestamp 1000, value 0.5},
{timestamp 2000, value 0.6}]` with id and label copied unchanged. -/
theorem c5_witness :
    normalizeResult (fun k => k == "cpu") [("cpu", panelCpu)] = Except.ok
      [⟨"cpu", [⟨"cpu", "CPU", [⟨1000, half⟩, ⟨2000, threeFifths⟩]⟩]⟩] := by
  rw [c5_point_mapping (fun k => k == "cpu") [("cpu", panelCpu)] (by decide)]
  rfl

/-- Claim C6: normalization iterates exactly the raw result's keys other than
the reserved `type` and `uiRestrictions` (which never produce an output
entry), and the first remaining key unknown to the runtime registry makes it
fail with the invalid-metric error naming that key. -/
theorem c6_reserved_keys_and_registry (isMetric : String → Bool) (result : RawResult) :
    (∀ out, normalizeResult isMetric result = Except.ok out →
      out.map NodeDetailsMetricData.id =
        (result.map Prod.fst).filter (fun k => !(k == "type" || k == "uiRestrictions")))
    ∧ (∀ out, normalizeResult isMetric result = Except.ok out →
        ∀ d ∈ out, d.id ≠ "type" ∧ d.id ≠ "uiRestrictions")
    ∧ (∀ k pre post,
        (result.map Prod.fst).filter (fun j => !(j == "type" || j == "uiRestrictions"))
          = pre ++ k :: post →
        (∀ j ∈ pre, isMetric j = true) → isMetric k = false →
        normalizeResult isMetric result =
          Except.error (MetricsError.invalidInfraMetric k)) := by
  have hid : ∀ x y, (fun id =>
      if !(isMetric id) then
        Except.error (MetricsError.invalidInfraMetric id)
      else
        Except.ok
          { id := id
            series := (((result.find? (fun kv => kv.1 == id)).map Prod.snd).getD ⟨[]⟩).series.map
              (fun series =>
                { id := series.id
                  label := series.label
                  data := series.data.map (fun point =>
                    { timestamp := point.1, value := point.2 }) }) }) x = Except.ok y →
      NodeDetailsMetricData.id y = x := by
    intro x y hxy
    by_cases hm : isMetric x
    · simp only [hm, Bool.not_true, Bool.false_eq_true, if_false] at hxy
      cases hxy
      rfl
    · simp only [Bool.not_eq_true] at hm
      simp [hm] at hxy
  refine ⟨?_, ?_, ?_⟩
  · intro out h
    simp only [normalizeResult] at h
    exact forall₂_map_eq NodeDetailsMetricData.id hid (traverseExcept_forall₂ _ h)
  · intro out h d hd
    have h1 : d.id ∈ out.map NodeDetailsMetricData.id := List.mem_map.mpr ⟨d, hd, rfl⟩
    rw [forall₂_map_eq NodeDetailsMetricData.id hid
      (traverseExcept_forall₂ _ (by simpa only [normalizeResult] using h))] at h1
    have h2 := (List.mem_filter.mp h1).2
    simp only [Bool.not_eq_true', Bool.or_eq_false_iff, beq_eq_false_iff_ne] at h2
    exact h2
  · intro k pre post hsplit hpre hk
    simp only [normalizeResult]
    rw [hsplit]
    apply traverseExcept_first_error _ _ pre k post
    · intro j hj
      simp only [hpre j hj, Bool.not_true, Bool.false_eq_true, if_false]
      exact ⟨_, rfl⟩
    · simp only [hk, Bool.not_false, if_true]

/-- Witness for C6: reserved keys are skipped (the output ids are exactly the
remaining keys) and an unrecognized key fails naming it. -/
theorem c6_witness :
    ([⟨"cpu", [⟨"cpu", "CPU", [⟨1000, half⟩, ⟨2000, threeFifths⟩]⟩]⟩] :
        List NodeDetailsMetricData).map NodeDetailsMetricData.id =
      ((([("type", Panel.mk []), ("cpu", panelCpu), ("uiRestrictions", Panel.mk [])] :
        RawResult).map Prod.fst).filter (fun k => !(k == "type" || k == "uiRestrictions")))
    ∧ normalizeResult registry0 [("cpu", panelCpu), ("bogus", Panel.mk [])] =
        Except.error (MetricsError.invalidInfraMetric "bogus") :=
  ⟨(c6_reserved_keys_and_registry registry0
      [("type", Panel.mk []), ("cpu", panelCpu), ("uiRestrictions", Panel.mk [])]).1
      [⟨"cpu", [⟨"cpu", "CPU", [⟨1000, half⟩, ⟨2000, threeFifths⟩]⟩]⟩] (by rfl),
   (c6_reserved_keys_and_registry registry0 [("cpu", panelCpu), ("bogus", Panel.mk [])]).2.2
      "bogus" ["cpu"] [] (by decide) (by decide) (by decide)⟩

end KibanaMetrics
